import Mathlib

/-!
Shallow embedding of arch/x86/include/asm/tlbflush.h (x86 TLB flushing
primitives).  Machine integers are modelled as `Nat` with an explicit
`% 2 ^ w` wherever overflow can occur; hardware capability queries
(`static_cpu_has`, `boot_cpu_has`, `this_cpu_has`) become `Bool`
parameters; `VM_WARN_ON_ONCE` debug assertions are modelled as separate
`.._warn` boolean functions since they warn without changing control flow.
-/

/-- Width of an `unsigned long` / `u64` on x86_64. -/
def WORD_BITS : Nat := 64

/-- `-1UL`, the all-ones 64-bit value. -/
def UL_MAX : Nat := 2 ^ WORD_BITS - 1

/-- The relevant fields of `struct mm_struct` for this header: the
address-space generation counter `mm->context.tlb_gen` (an `atomic64_t`),
the stable context identifier `mm->context.ctx_id`, and the affinity set
`mm_cpumask(mm)` modelled as a bitmask of CPUs. -/
structure MmStruct where
  ctx_id : Nat
  tlb_gen : Nat
  cpumask : Nat
deriving DecidableEq, Repr

/-- `inc_mm_tlb_gen(mm)`: `atomic64_inc_return(&mm->context.tlb_gen)` —
increments the 64-bit generation counter (wrapping at `2^64`, as the
hardware atomic does) and returns the new value.  Modelled as explicit
state passing: returns the updated `mm` together with the returned value. -/
def inc_mm_tlb_gen (mm : MmStruct) : MmStruct × Nat :=
  let g := (mm.tlb_gen + 1) % 2 ^ WORD_BITS
  ({ mm with tlb_gen := g }, g)

/-- The state of `mm` after `n` successive `inc_mm_tlb_gen` calls. -/
def bumpIter (mm : MmStruct) : Nat → MmStruct
  | 0 => mm
  | n + 1 => (inc_mm_tlb_gen (bumpIter mm n)).1

/-- The value returned by the `(k+1)`-th `inc_mm_tlb_gen` call in a
sequence of bumps starting from `mm` (i.e. the call made after `k`
earlier bumps). -/
def bumpRet (mm : MmStruct) (k : Nat) : Nat :=
  (inc_mm_tlb_gen (bumpIter mm k)).2

/-- `CR3_HW_ASID_BITS`: there are 12 bits of space for ASIDs in CR3. -/
def CR3_HW_ASID_BITS : Nat := 12

/-- `PTI_CONSUMED_ASID_BITS` (0 in this configuration). -/
def PTI_CONSUMED_ASID_BITS : Nat := 0

/-- `CR3_AVAIL_ASID_BITS = CR3_HW_ASID_BITS - PTI_CONSUMED_ASID_BITS`. -/
def CR3_AVAIL_ASID_BITS : Nat := CR3_HW_ASID_BITS - PTI_CONSUMED_ASID_BITS

/-- `MAX_ASID_AVAILABLE = (1 << CR3_AVAIL_ASID_BITS) - 2`. -/
def MAX_ASID_AVAILABLE : Nat := (1 <<< CR3_AVAIL_ASID_BITS) - 2

/-- `kern_pcid(asid)`: returns `asid + 1` (as a `u16`, hence the
`% 2^16`). -/
def kern_pcid (asid : Nat) : Nat :=
  (asid + 1) % 2 ^ 16

/-- The `VM_WARN_ON_ONCE(asid > MAX_ASID_AVAILABLE)` debug assertion at
the top of `kern_pcid`: true exactly when the assertion fires. -/
def kern_pcid_warn (asid : Nat) : Bool :=
  asid > MAX_ASID_AVAILABLE

/-- `build_cr3(pgd, asid)`: with PCID, `__sme_pa(pgd) | kern_pcid(asid)`;
without PCID, the bare `__sme_pa(pgd)`.  `pa` stands for the value of
`__sme_pa(pgd)` (computed by an external collaborator);
`static_cpu_has(X86_FEATURE_PCID)` is the `has_pcid` parameter. -/
def build_cr3 (has_pcid : Bool) (pa : Nat) (asid : Nat) : Nat :=
  if has_pcid then pa ||| kern_pcid asid else pa

/-- The debug assertions of `build_cr3`: in the PCID branch the only
assertion is the one inside `kern_pcid`; in the non-PCID branch,
`VM_WARN_ON_ONCE(asid != 0)`. -/
def build_cr3_warn (has_pcid : Bool) (asid : Nat) : Bool :=
  if has_pcid then kern_pcid_warn asid else asid != 0

/-- `tlb_defer_switch_to_init_mm()`: `!static_cpu_has(X86_FEATURE_PCID)`. -/
def tlb_defer_switch_to_init_mm (has_pcid : Bool) : Bool :=
  !has_pcid

/-- `TLB_NR_DYN_ASIDS`: 6, so that `struct tlb_state` fits in two cache
lines. -/
def TLB_NR_DYN_ASIDS : Nat := 6

/-- `struct tlb_context`: exactly a context identifier and a cached
generation. -/
structure tlb_context where
  ctx_id : Nat
  tlb_gen : Nat
deriving DecidableEq, Repr

/-- `struct tlb_state` (per-CPU `cpu_tlbstate`): the loaded mm (a pointer,
modelled by its address), the loaded ASID, the round-robin cursor, the
lazy flag, the CR4 shadow, and the `ctxs[TLB_NR_DYN_ASIDS]` array of
contexts, indexed by ASID. -/
structure tlb_state where
  loaded_mm : Nat
  loaded_mm_asid : Nat
  next_asid : Nat
  is_lazy : Bool
  cr4 : Nat
  ctxs : Fin TLB_NR_DYN_ASIDS → tlb_context

/-- Per the comment in `struct tlb_state`: "the ASID (what the CPU calls
PCID) is the index into ctxs" — look up the context cached under a given
ASID by indexing the array. -/
def tlb_state.context_of (s : tlb_state) (asid : Fin TLB_NR_DYN_ASIDS) : tlb_context :=
  s.ctxs asid

/-- Bitwise complement of a 64-bit `unsigned long` value: `~mask` in C is
xor with all ones. -/
def ulNot (mask : Nat) : Nat := mask ^^^ UL_MAX

/-- Per-CPU CR4 state: the `cpu_tlbstate.cr4` shadow, the hardware CR4
register, and a count of hardware register writes performed, so that
"no hardware write happened" is observable in the model. -/
structure CpuCr4 where
  shadow : Nat
  hw : Nat
  writes : Nat
deriving DecidableEq, Repr

/-- `__cr4_set(cr4)`: writes the shadow (`this_cpu_write`) and the
hardware register (`__write_cr4`); interrupts are already disabled by the
callers modelled here. -/
def __cr4_set (s : CpuCr4) (cr4 : Nat) : CpuCr4 :=
  { shadow := cr4, hw := cr4, writes := s.writes + 1 }

/-- `cr4_set_bits(mask)`: reads the shadow and calls `__cr4_set(cr4 | mask)`
only when that changes the value (interrupt save/restore elided — it does
not affect the modelled state). -/
def cr4_set_bits (s : CpuCr4) (mask : Nat) : CpuCr4 :=
  if (s.shadow ||| mask) ≠ s.shadow then __cr4_set s (s.shadow ||| mask) else s

/-- `cr4_clear_bits(mask)`: reads the shadow and calls
`__cr4_set(cr4 & ~mask)` only when that changes the value. -/
def cr4_clear_bits (s : CpuCr4) (mask : Nat) : CpuCr4 :=
  if (s.shadow &&& ulNot mask) ≠ s.shadow then __cr4_set s (s.shadow &&& ulNot mask) else s

/-- One cached translation in a CPU's hardware TLB: whether the entry is
global, which hardware PCID tag it carries, and its virtual address. -/
structure TlbEntry where
  is_global : Bool
  pcid : Nat
  va : Nat
deriving DecidableEq, Repr

/-- The per-CPU hardware TLB model used by the local flush primitives:
capability bits (`boot_cpu_has(X86_FEATURE_PGE)`,
`static_cpu_has(X86_FEATURE_PCID)`, `static_cpu_has(X86_FEATURE_INVPCID)`),
the PCID currently active in CR3, and the set of cached translations. -/
structure CpuTlb where
  has_pge : Bool
  has_pcid : Bool
  has_invpcid : Bool
  cur_pcid : Nat
  tlb : List TlbEntry
deriving DecidableEq, Repr

/-- `__native_flush_tlb()`: `native_write_cr3(__native_read_cr3())`.
Rewriting CR3 invalidates the non-global entries tagged with the current
PCID (with `CR4.PCIDE` off there is a single implicit tag, so all
non-global entries go). -/
def __native_flush_tlb (c : CpuTlb) : CpuTlb :=
  if c.has_pcid then
    { c with tlb := c.tlb.filter fun e => e.is_global || e.pcid != c.cur_pcid }
  else
    { c with tlb := c.tlb.filter fun e => e.is_global }

/-- `invpcid_flush_all()` (from `asm/invpcid.h`): INVPCID type 2,
invalidating every cached translation — global and non-global, all
PCIDs. -/
def invpcid_flush_all (c : CpuTlb) : CpuTlb :=
  { c with tlb := [] }

/-- `__native_flush_tlb_global()`: with INVPCID, `invpcid_flush_all()`;
otherwise toggle `CR4.PGE` and write the old value back, which flushes
every cached translation including global ones. -/
def __native_flush_tlb_global (c : CpuTlb) : CpuTlb :=
  if c.has_invpcid then invpcid_flush_all c
  else { c with tlb := [] }

/-- `__flush_tlb_all()` in the `!CONFIG_PARAVIRT` configuration, where
`__flush_tlb()` is `__native_flush_tlb()` and `__flush_tlb_global()` is
`__native_flush_tlb_global()`: if `boot_cpu_has(X86_FEATURE_PGE)` do the
global flush, else the ordinary one. -/
def __flush_tlb_all (c : CpuTlb) : CpuTlb :=
  if c.has_pge then __native_flush_tlb_global c
  else __native_flush_tlb c

/-- `PAGE_SIZE` on x86: 4096 bytes (defined by the external mm headers). -/
def PAGE_SIZE : Nat := 4096

/-- `VM_NONE`: the empty vm-flags value `0` (from the external
`linux/mm.h`). -/
def VM_NONE : Nat := 0

/-- `TLB_FLUSH_ALL = -1UL`: the whole-address-space sentinel. -/
def TLB_FLUSH_ALL : Nat := UL_MAX

/-- The observable effect of one call to the extern function
`flush_tlb_mm_range(mm, start, end, vmflag)`: its body lives outside this
header, so the call is modelled by the request it dispatches, exactly the
four arguments passed. -/
structure FlushTlbMmRangeCall where
  mm : MmStruct
  start : Nat
  end' : Nat
  vmflag : Nat
deriving DecidableEq, Repr

/-- `flush_tlb_mm_range` is extern; the embedding records the dispatched
request. -/
def flush_tlb_mm_range (mm : MmStruct) (start end' vmflag : Nat) : FlushTlbMmRangeCall :=
  ⟨mm, start, end', vmflag⟩

/-- Per the `struct flush_tlb_info` comment: a request fully flushes the
mm exactly when its `.end` is `TLB_FLUSH_ALL`. -/
def FlushTlbMmRangeCall.isFullFlush (c : FlushTlbMmRangeCall) : Bool :=
  c.end' == TLB_FLUSH_ALL

/-- The relevant fields of `struct vm_area_struct`: the owning mm and the
vm flags. -/
structure VmAreaStruct where
  vm_mm : MmStruct
  vm_flags : Nat
deriving DecidableEq, Repr

/-- `flush_tlb_mm(mm)`: `flush_tlb_mm_range(mm, 0UL, TLB_FLUSH_ALL, 0UL)`. -/
def flush_tlb_mm (mm : MmStruct) : FlushTlbMmRangeCall :=
  flush_tlb_mm_range mm 0 TLB_FLUSH_ALL 0

/-- `flush_tlb_range(vma, start, end)`:
`flush_tlb_mm_range(vma->vm_mm, start, end, vma->vm_flags)`. -/
def flush_tlb_range (vma : VmAreaStruct) (start end' : Nat) : FlushTlbMmRangeCall :=
  flush_tlb_mm_range vma.vm_mm start end' vma.vm_flags

/-- `flush_tlb_page(vma, a)`:
`flush_tlb_mm_range(vma->vm_mm, a, a + PAGE_SIZE, VM_NONE)`. -/
def flush_tlb_page (vma : VmAreaStruct) (a : Nat) : FlushTlbMmRangeCall :=
  flush_tlb_mm_range vma.vm_mm a (a + PAGE_SIZE) VM_NONE

/-- Modelled from the spec: `flush_page(address_space, address)` is the
single-page convenience — the general ranged flush over exactly the
one-page range `[address, address + PAGE_SIZE)` on that address space,
with no vm flags. -/
def spec_flush_page (mm : MmStruct) (address : Nat) : FlushTlbMmRangeCall :=
  flush_tlb_mm_range mm address (address + PAGE_SIZE) VM_NONE

/-- `struct arch_tlbflush_unmap_batch`: the accumulated target CPU set of
a batched unmap, as a cpumask. -/
structure ArchTlbflushUnmapBatch where
  cpumask : Nat
deriving DecidableEq, Repr

/-- `cpumask_or(dst, a, b)` as a value: bitwise or of two cpumasks. -/
def cpumask_or (a b : Nat) : Nat := a ||| b

/-- `mm_cpumask(mm)`: the mm's affinity set. -/
def mm_cpumask (mm : MmStruct) : Nat := mm.cpumask

/-- `arch_tlbbatch_add_mm(batch, mm)`: `inc_mm_tlb_gen(mm)` then
`cpumask_or(&batch->cpumask, &batch->cpumask, mm_cpumask(mm))`.  The body
makes no flush call, so the list of `flush_tlb_mm_range` requests it
dispatches is empty; the combined dispatch is `arch_tlbbatch_flush`
(extern, called later by the batch owner). -/
def arch_tlbbatch_add_mm (batch : ArchTlbflushUnmapBatch) (mm : MmStruct) :
    ArchTlbflushUnmapBatch × MmStruct × List FlushTlbMmRangeCall :=
  let mm' := (inc_mm_tlb_gen mm).1
  ({ cpumask := cpumask_or batch.cpumask (mm_cpumask mm') }, mm', [])

/-- A sequence of `arch_tlbbatch_add_mm` calls folded over a list of
address spaces, yielding the final accumulated batch. -/
def batchAddAll (batch : ArchTlbflushUnmapBatch) : List MmStruct → ArchTlbflushUnmapBatch
  | [] => batch
  | mm :: rest => batchAddAll (arch_tlbbatch_add_mm batch mm).1 rest

/-- Helper: after `k ≤ n` bumps, the stored generation is exactly the
initial one plus `k`, provided the whole sequence stays below `2^64`. -/
theorem bumpIter_gen_eq (mm : MmStruct) (n : Nat) (h : mm.tlb_gen + n < 2 ^ WORD_BITS) :
    ∀ k, k ≤ n → (bumpIter mm k).tlb_gen = mm.tlb_gen + k := by
  intro k
  induction k with
  | zero => intro _; rfl
  | succ k ih =>
    intro hk
    have hg := ih (Nat.le_of_succ_le hk)
    have hlt : mm.tlb_gen + k + 1 < 2 ^ WORD_BITS := by omega
    show ((inc_mm_tlb_gen (bumpIter mm k)).1).tlb_gen = mm.tlb_gen + (k + 1)
    simp [inc_mm_tlb_gen, hg, Nat.add_assoc]
    exact Nat.mod_eq_of_lt (by omega)

/-- C1: `inc_mm_tlb_gen` atomically increments the address space's
generation counter and returns the new value; across any sequence of
bumps on the same `mm` (that does not overflow the 64-bit counter) the
returned generations are strictly increasing and the stored generation
never decreases. -/
theorem inc_mm_tlb_gen_spec (mm : MmStruct) (n : Nat)
    (h : mm.tlb_gen + n < 2 ^ WORD_BITS) :
    (∀ k, k ≤ n → (bumpIter mm k).tlb_gen = mm.tlb_gen + k)
    ∧ (∀ k, bumpRet mm k = (bumpIter mm (k + 1)).tlb_gen)
    ∧ (∀ i j, i < j → j < n → bumpRet mm i < bumpRet mm j)
    ∧ (∀ i j, i ≤ j → j ≤ n → (bumpIter mm i).tlb_gen ≤ (bumpIter mm j).tlb_gen) := by
  have hgen := bumpIter_gen_eq mm n h
  refine ⟨hgen, fun k => rfl, ?_, ?_⟩
  · intro i j hij hjn
    have hi := hgen (i + 1) (by omega)
    have hj := hgen (j + 1) (by omega)
    have ri : bumpRet mm i = (bumpIter mm (i + 1)).tlb_gen := rfl
    have rj : bumpRet mm j = (bumpIter mm (j + 1)).tlb_gen := rfl
    rw [ri, rj, hi, hj]
    omega
  · intro i j hij hjn
    rw [hgen i (le_trans hij hjn), hgen j hjn]
    omega

/-- Witness for C1 at a concrete address space and a sequence of three
bumps. -/
theorem inc_mm_tlb_gen_spec_witness :
    (bumpIter ⟨0, 0, 0⟩ 3).tlb_gen = (⟨0, 0, 0⟩ : MmStruct).tlb_gen + 3
    ∧ bumpRet ⟨0, 0, 0⟩ 0 < bumpRet ⟨0, 0, 0⟩ 2 := by
  have h := inc_mm_tlb_gen_spec ⟨0, 0, 0⟩ 3 (by decide)
  exact ⟨h.1 3 (by decide), h.2.2.1 0 2 (by decide) (by decide)⟩

/-- C2: the per-CPU ASID slot table is a fixed-capacity array of exactly
`TLB_NR_DYN_ASIDS = 6` entries, each entry holding exactly a context
identifier and a cached generation, and the ASID is the index into the
array. -/
theorem tlb_state_asid_table_spec :
    TLB_NR_DYN_ASIDS = 6
    ∧ Fintype.card (Fin TLB_NR_DYN_ASIDS) = 6
    ∧ (∀ a : tlb_context, a = ⟨a.ctx_id, a.tlb_gen⟩)
    ∧ (∀ (s : tlb_state) (asid : Fin TLB_NR_DYN_ASIDS), s.context_of asid = s.ctxs asid) :=
  ⟨rfl, by simp [TLB_NR_DYN_ASIDS], fun _ => rfl, fun _ _ => rfl⟩

/-- C3: for every in-range software ASID, `kern_pcid` yields `asid + 1`,
which is nonzero (so a real address space never aliases the reserved
hardware tag 0) and fits the 12-bit hardware tag space, and the debug
assertion stays silent; an out-of-range ASID fires the debug assertion. -/
theorem kern_pcid_spec (asid : Nat) :
    (asid ≤ MAX_ASID_AVAILABLE →
      kern_pcid asid = asid + 1
      ∧ kern_pcid asid ≠ 0
      ∧ kern_pcid asid < 2 ^ CR3_HW_ASID_BITS
      ∧ kern_pcid_warn asid = false)
    ∧ (MAX_ASID_AVAILABLE < asid → kern_pcid_warn asid = true) := by
  have hmax : MAX_ASID_AVAILABLE = 4094 := by decide
  constructor
  · intro h
    have he : kern_pcid asid = asid + 1 := by
      unfold kern_pcid
      exact Nat.mod_eq_of_lt (by omega)
    refine ⟨he, by omega, ?_, ?_⟩
    · rw [he]
      have : (2 : Nat) ^ CR3_HW_ASID_BITS = 4096 := by decide
      omega
    · simp [kern_pcid_warn]
      omega
  · intro h
    simp [kern_pcid_warn]
    omega

/-- Witness for C3 at the reserved-slot-0 input and just past the valid
range. -/
theorem kern_pcid_spec_witness :
    (kern_pcid 0 = 0 + 1
      ∧ kern_pcid 0 ≠ 0
      ∧ kern_pcid 0 < 2 ^ CR3_HW_ASID_BITS
      ∧ kern_pcid_warn 0 = false)
    ∧ kern_pcid_warn 4095 = true :=
  ⟨(kern_pcid_spec 0).1 (by decide), (kern_pcid_spec 4095).2 (by decide)⟩

/-- C4: the defer-versus-switch heuristic returns true exactly when PCID
is absent: no PCID (expensive switch) defers, PCID (cheap switch)
switches immediately. -/
theorem tlb_defer_switch_to_init_mm_spec :
    (∀ has_pcid : Bool, tlb_defer_switch_to_init_mm has_pcid = !has_pcid)
    ∧ tlb_defer_switch_to_init_mm false = true
    ∧ tlb_defer_switch_to_init_mm true = false := by
  refine ⟨fun b => rfl, rfl, rfl⟩

/-- C5: without PCID, `build_cr3` returns the bare page-table root (no
tag bits) and its debug assertion accepts only `asid = 0`; with PCID, it
embeds `kern_pcid asid` into the root register value. -/
theorem build_cr3_spec (pa asid : Nat) :
    build_cr3 false pa asid = pa
    ∧ (asid = 0 → build_cr3_warn false asid = false)
    ∧ (asid ≠ 0 → build_cr3_warn false asid = true)
    ∧ build_cr3 true pa asid = pa ||| kern_pcid asid := by
  refine ⟨rfl, ?_, ?_, rfl⟩
  · intro h
    simp [build_cr3_warn, h]
  · intro h
    simp [build_cr3_warn, h]

/-- Witness for C5 at a concrete root and the accepted and rejected
ASIDs. -/
theorem build_cr3_spec_witness :
    build_cr3 false 5 0 = 5
    ∧ build_cr3_warn false 0 = false
    ∧ build_cr3_warn false 3 = true
    ∧ build_cr3 true 5 3 = 5 ||| kern_pcid 3 :=
  ⟨(build_cr3_spec 5 0).1, (build_cr3_spec 5 0).2.1 rfl,
   (build_cr3_spec 5 3).2.2.1 (by decide), (build_cr3_spec 5 3).2.2.2⟩

/-- C6: the single-page flush is exactly the general ranged flush over
the one-page range `[a, a + PAGE_SIZE)` on the vma's address space, with
empty vm flags and no other action. -/
theorem flush_tlb_page_spec (vma : VmAreaStruct) (a : Nat) :
    flush_tlb_page vma a = spec_flush_page vma.vm_mm a
    ∧ flush_tlb_page vma a = flush_tlb_mm_range vma.vm_mm a (a + PAGE_SIZE) VM_NONE
    ∧ (flush_tlb_page vma a).mm = vma.vm_mm
    ∧ (flush_tlb_page vma a).start = a
    ∧ (flush_tlb_page vma a).end' = a + PAGE_SIZE
    ∧ (flush_tlb_page vma a).vmflag = VM_NONE :=
  ⟨rfl, rfl, rfl, rfl, rfl, rfl⟩

/-- C7: the full per-mm flush is the ranged flush with the
whole-address-space sentinel: `flush_tlb_mm_range(mm, 0, TLB_FLUSH_ALL, 0)`
with `TLB_FLUSH_ALL = -1UL = 2^64 - 1`, and such a request means a
whole-address-space flush. -/
theorem flush_tlb_mm_spec (mm : MmStruct) :
    flush_tlb_mm mm = flush_tlb_mm_range mm 0 TLB_FLUSH_ALL 0
    ∧ TLB_FLUSH_ALL = 2 ^ WORD_BITS - 1
    ∧ (flush_tlb_mm mm).isFullFlush = true := by
  refine ⟨rfl, rfl, ?_⟩
  simp [flush_tlb_mm, flush_tlb_mm_range, FlushTlbMmRangeCall.isFullFlush]

/-- Helper: folding `arch_tlbbatch_add_mm` over any list of address
spaces never clears a CPU already present in the batch's target set. -/
theorem batchAddAll_mono (mms : List MmStruct) :
    ∀ (batch : ArchTlbflushUnmapBatch) (i : Nat), batch.cpumask.testBit i = true →
      (batchAddAll batch mms).cpumask.testBit i = true := by
  induction mms with
  | nil => intro batch i h; exact h
  | cons mm rest ih =>
    intro batch i h
    show (batchAddAll (arch_tlbbatch_add_mm batch mm).1 rest).cpumask.testBit i = true
    apply ih
    simp [arch_tlbbatch_add_mm, cpumask_or, mm_cpumask, inc_mm_tlb_gen, Nat.testBit_or, h]

/-- C8: `arch_tlbbatch_add_mm` bumps the mm's generation by exactly one
(touching nothing else of the mm), unions the mm's affinity set into the
batch's accumulated target CPU set, dispatches no flush itself, and the
target set never shrinks across successive calls. -/
theorem arch_tlbbatch_add_mm_spec (batch : ArchTlbflushUnmapBatch) (mm : MmStruct)
    (h : mm.tlb_gen + 1 < 2 ^ WORD_BITS) :
    ((arch_tlbbatch_add_mm batch mm).2.1).tlb_gen = mm.tlb_gen + 1
    ∧ ((arch_tlbbatch_add_mm batch mm).2.1).ctx_id = mm.ctx_id
    ∧ ((arch_tlbbatch_add_mm batch mm).2.1).cpumask = mm.cpumask
    ∧ ((arch_tlbbatch_add_mm batch mm).1).cpumask = batch.cpumask ||| mm.cpumask
    ∧ (∀ i, batch.cpumask.testBit i = true →
        ((arch_tlbbatch_add_mm batch mm).1).cpumask.testBit i = true)
    ∧ (arch_tlbbatch_add_mm batch mm).2.2 = []
    ∧ (∀ (mms : List MmStruct) (i : Nat), batch.cpumask.testBit i = true →
        (batchAddAll batch mms).cpumask.testBit i = true) := by
  refine ⟨?_, rfl, rfl, rfl, ?_, rfl, fun mms => batchAddAll_mono mms batch⟩
  · show (mm.tlb_gen + 1) % 2 ^ WORD_BITS = mm.tlb_gen + 1
    exact Nat.mod_eq_of_lt h
  · intro i hi
    simp [arch_tlbbatch_add_mm, cpumask_or, mm_cpumask, inc_mm_tlb_gen, Nat.testBit_or, hi]

/-- Witness for C8 at a concrete batch, mm and a two-element batch
sequence. -/
theorem arch_tlbbatch_add_mm_spec_witness :
    ((arch_tlbbatch_add_mm ⟨1⟩ ⟨7, 0, 2⟩).2.1).tlb_gen = (⟨7, 0, 2⟩ : MmStruct).tlb_gen + 1
    ∧ ((arch_tlbbatch_add_mm ⟨1⟩ ⟨7, 0, 2⟩).1).cpumask = 1 ||| 2
    ∧ Nat.testBit ((arch_tlbbatch_add_mm ⟨1⟩ ⟨7, 0, 2⟩).1).cpumask 0 = true
    ∧ (batchAddAll ⟨1⟩ [⟨7, 0, 2⟩, ⟨8, 5, 4⟩]).cpumask.testBit 0 = true := by
  have h := arch_tlbbatch_add_mm_spec ⟨1⟩ ⟨7, 0, 2⟩ (by decide)
  exact ⟨h.1, h.2.2.2.1, h.2.2.2.2.1 0 (by decide),
    h.2.2.2.2.2.2 [⟨7, 0, 2⟩, ⟨8, 5, 4⟩] 0 (by decide)⟩

/-- C9: `__flush_tlb_all` removes every cached translation on the calling
CPU under every capability configuration: with PGE it takes the global
flush, without PGE (which by the boot-time rule `!PGE -> !PCID` implies
no PCID, and means no global entries exist) it takes the ordinary full
flush; either way the TLB ends empty. -/
theorem flush_tlb_all_spec (c : CpuTlb)
    (hpcid : c.has_pge = false → c.has_pcid = false)
    (hglob : c.has_pge = false → ∀ e ∈ c.tlb, e.is_global = false) :
    (c.has_pge = true → __flush_tlb_all c = __native_flush_tlb_global c)
    ∧ (c.has_pge = false → __flush_tlb_all c = __native_flush_tlb c)
    ∧ (__flush_tlb_all c).tlb = [] := by
  refine ⟨?_, ?_, ?_⟩
  · intro h; simp [__flush_tlb_all, h]
  · intro h; simp [__flush_tlb_all, h]
  · cases hb : c.has_pge with
    | false =>
      have h1 := hpcid hb
      have h2 := hglob hb
      simp only [__flush_tlb_all, hb, Bool.false_eq_true, if_false, __native_flush_tlb, h1]
      simp only [List.filter_eq_nil_iff]
      intro e he
      simp [h2 e he]
    | true =>
      simp [__flush_tlb_all, hb, __native_flush_tlb_global, invpcid_flush_all]

/-- Witness for C9 on a no-PGE CPU holding a stale non-global entry and
on a fully featured CPU holding a global entry. -/
theorem flush_tlb_all_spec_witness :
    (__flush_tlb_all ⟨false, false, false, 0, [⟨false, 2, 100⟩]⟩).tlb = []
    ∧ (__flush_tlb_all ⟨true, true, true, 1, [⟨true, 0, 4096⟩]⟩).tlb = [] := by
  constructor
  · exact (flush_tlb_all_spec _ (fun _ => rfl) (by decide)).2.2
  · exact (flush_tlb_all_spec _ (by decide) (by decide)).2.2

/-- Helper: `cr4_set_bits` is a no-op when the or changes nothing. -/
theorem cr4_set_bits_noop (t : CpuCr4) (mask : Nat) (h : t.shadow ||| mask = t.shadow) :
    cr4_set_bits t mask = t := by
  simp [cr4_set_bits, h]

/-- Helper: `cr4_clear_bits` is a no-op when the masked clear changes
nothing. -/
theorem cr4_clear_bits_noop (t : CpuCr4) (mask : Nat) (h : t.shadow &&& ulNot mask = t.shadow) :
    cr4_clear_bits t mask = t := by
  simp [cr4_clear_bits, h]

/-- C10: `cr4_set_bits mask` yields shadow `old | mask` and
`cr4_clear_bits mask` yields shadow `old & ~mask`; both leave every bit
outside `mask` unchanged, both are idempotent, and when the masked
operation would not change the value the whole state — in particular the
hardware-write count — is untouched. -/
theorem cr4_bits_spec (s : CpuCr4) (mask : Nat)
    (hs : s.shadow < 2 ^ WORD_BITS) (hm : mask < 2 ^ WORD_BITS) :
    (cr4_set_bits s mask).shadow = s.shadow ||| mask
    ∧ (cr4_clear_bits s mask).shadow = s.shadow &&& ulNot mask
    ∧ (∀ i, mask.testBit i = false →
        ((cr4_set_bits s mask).shadow.testBit i = s.shadow.testBit i
          ∧ (cr4_clear_bits s mask).shadow.testBit i = s.shadow.testBit i))
    ∧ (∀ i, mask.testBit i = true →
        ((cr4_set_bits s mask).shadow.testBit i = true
          ∧ (cr4_clear_bits s mask).shadow.testBit i = false))
    ∧ cr4_set_bits (cr4_set_bits s mask) mask = cr4_set_bits s mask
    ∧ cr4_clear_bits (cr4_clear_bits s mask) mask = cr4_clear_bits s mask
    ∧ (s.shadow ||| mask = s.shadow → cr4_set_bits s mask = s)
    ∧ (s.shadow &&& ulNot mask = s.shadow → cr4_clear_bits s mask = s) := by
  have hset : (cr4_set_bits s mask).shadow = s.shadow ||| mask := by
    by_cases h : (s.shadow ||| mask) = s.shadow
    · simp [cr4_set_bits, h]
    · simp [cr4_set_bits, h, __cr4_set]
  have hclear : (cr4_clear_bits s mask).shadow = s.shadow &&& ulNot mask := by
    by_cases h : (s.shadow &&& ulNot mask) = s.shadow
    · simp [cr4_clear_bits, h]
    · simp [cr4_clear_bits, h, __cr4_set]
  refine ⟨hset, hclear, ?_, ?_, ?_, ?_, cr4_set_bits_noop s mask, cr4_clear_bits_noop s mask⟩
  · intro i hi
    constructor
    · rw [hset, Nat.testBit_or, hi, Bool.or_false]
    · by_cases hiw : i < WORD_BITS
      · simp [hclear, Nat.testBit_and, ulNot, Nat.testBit_xor, UL_MAX,
          Nat.testBit_two_pow_sub_one, hi, hiw]
      · have hz : s.shadow.testBit i = false :=
          Nat.testBit_lt_two_pow
            (lt_of_lt_of_le hs (Nat.pow_le_pow_right (by norm_num) (Nat.le_of_not_lt hiw)))
        simp [hclear, Nat.testBit_and, ulNot, Nat.testBit_xor, UL_MAX,
          Nat.testBit_two_pow_sub_one, hi, hiw, hz]
  · intro i hi
    have hiw : i < WORD_BITS := by
      by_contra hni
      have hz : mask.testBit i = false :=
        Nat.testBit_lt_two_pow
          (lt_of_lt_of_le hm (Nat.pow_le_pow_right (by norm_num) (Nat.le_of_not_lt hni)))
      simp [hz] at hi
    constructor
    · rw [hset, Nat.testBit_or, hi, Bool.or_true]
    · simp [hclear, Nat.testBit_and, ulNot, Nat.testBit_xor, UL_MAX,
        Nat.testBit_two_pow_sub_one, hi, hiw]
  · apply cr4_set_bits_noop
    rw [hset, Nat.lor_assoc, Nat.or_self]
  · apply cr4_clear_bits_noop
    rw [hclear, Nat.land_assoc, Nat.and_self]

/-- Witness for C10 at a concrete shadow and mask, including a no-op
case where nothing changes. -/
theorem cr4_bits_spec_witness :
    (cr4_set_bits ⟨5, 5, 0⟩ 3).shadow = 5 ||| 3
    ∧ (cr4_clear_bits ⟨5, 5, 0⟩ 3).shadow = 5 &&& ulNot 3
    ∧ cr4_set_bits (cr4_set_bits ⟨5, 5, 0⟩ 3) 3 = cr4_set_bits ⟨5, 5, 0⟩ 3
    ∧ cr4_set_bits ⟨7, 7, 0⟩ 3 = ⟨7, 7, 0⟩ := by
  have h := cr4_bits_spec ⟨5, 5, 0⟩ 3 (by decide) (by decide)
  have h2 := cr4_bits_spec ⟨7, 7, 0⟩ 3 (by decide) (by decide)
  exact ⟨h.1, h.2.1, h.2.2.2.2.1, h2.2.2.2.2.2.2.1 (by decide)⟩
